import Mathlib

/-!
Shallow embedding of the SureMDM webhook handler
(source: src/functions/webhook-handler.js).

The program is a Netlify function that, on every inbound request,
loads a CSV dataset through a module-level cache, parses the request
body, validates the payload, optionally fetches device details from
the SureMDM API, looks up custom properties by serial number, and
submits a batch property update.

The embedding models:
  - JavaScript values of a parsed JSON payload field and their
    truthiness (JSValue, truthy);
  - the module-level CSV cache (csvDataCache, csvLoadPromise) as a
    state machine whose atomic events are the synchronous body of
    getCSVData and the then/catch continuations of the load promise;
  - the request handler as a pure function of the parsed inputs and
    of the outcomes of the two outbound fetch calls, returning the
    HTTP response together with an effect record that states which
    outbound calls were issued.
-/

set_option autoImplicit false

namespace Webhook

/-- A JavaScript value as it may appear in a field of a parsed JSON
payload: null, boolean, number or string. -/
inductive JSValue where
  | vnull
  | vbool (b : Bool)
  | vnum (n : Int)
  | vstr (s : String)
  deriving DecidableEq, Repr

/-- JavaScript truthiness of a value: null, false, 0 and the empty
string are falsy, everything else is truthy. -/
def truthy : JSValue → Bool
  | .vnull => false
  | .vbool b => b
  | .vnum n => n != 0
  | .vstr s => s != ""

/-- Truthiness of a possibly-absent field: an absent field is falsy. -/
def truthyOpt : Option JSValue → Bool
  | none => false
  | some v => truthy v

/-- String interpolation of a JavaScript value, as in a template
literal. -/
def jsToString : JSValue → String
  | .vnull => "null"
  | .vbool b => if b then "true" else "false"
  | .vnum n => toString n
  | .vstr s => s

/-- Models the JavaScript idiom `x || d` applied to a field that is
either absent or a string: the default is taken when the field is
absent or the empty string. -/
def jsOr (v : Option String) (d : String) : String :=
  match v with
  | some s => if s = "" then d else s
  | none => d

/-- Drops leading whitespace characters from a character list. -/
def dropWhitespace : List Char → List Char
  | [] => []
  | c :: cs => if c.isWhitespace then dropWhitespace cs else c :: cs

/-- Models `rawBody.trim()`: removes leading and trailing whitespace.
Defined by structural recursion over the character list so that it
evaluates on concrete inputs. -/
def jsTrim (s : String) : String :=
  String.mk (dropWhitespace (dropWhitespace s.data.reverse).reverse)

/-- One row of the CSV dataset. A column that is missing from a row is
modelled as `none`. -/
structure PropertyRow where
  SerialNumber : Option String
  Propertyname : Option String
  Value : Option String
  deriving DecidableEq, Repr

/-- `lookupCustomProperties(csvData, serialNumber)` from the source:
returns `[]` when `serialNumber` or `csvData` is falsy, otherwise
filters the rows whose `SerialNumber` column strictly equals the given
serial number. -/
def lookupCustomProperties (csvData : Option (List PropertyRow))
    (serialNumber : Option String) : List PropertyRow :=
  match serialNumber, csvData with
  | none, _ => []
  | some _, none => []
  | some s, some rows =>
    if s = "" then []
    else rows.filter (fun row =>
      match row.SerialNumber with
      | some t => t == s
      | none => false)

/-! ### The module-level CSV cache

`getCSVData` is an async function whose body contains no `await`, so
each invocation runs atomically to completion on the event loop; the
`then` and `catch` continuations of the load promise likewise run
atomically. The cache is therefore a state machine whose events are
these atomic blocks. -/

/-- The two module-level variables: `csvDataCache` (null or the loaded
rows) and `csvLoadPromise` (whether a load promise is pending, i.e.
the variable is not null). -/
structure CacheState where
  csvDataCache : Option (List PropertyRow)
  csvLoadPromise : Bool
  deriving DecidableEq, Repr

/-- Process start: both module-level variables are null. -/
def initialCacheState : CacheState := ⟨none, false⟩

/-- The observable behaviour of one synchronous run of `getCSVData`:
it returned the cache directly, it joined the pending load promise, or
it started a new load (which is exactly when the backing file is
read). -/
inductive CallResult where
  | cached (data : List PropertyRow)
  | joined
  | started
  deriving DecidableEq, Repr

/-- The synchronous body of `getCSVData`: return the cache if set,
else join a pending load, else start a load, setting the promise
variable. -/
def getCSVDataStep (s : CacheState) : CacheState × CallResult :=
  match s.csvDataCache with
  | some data => (s, .cached data)
  | none =>
    if s.csvLoadPromise then (s, .joined)
    else ({ s with csvLoadPromise := true }, .started)

/-- The `then` continuation of a successful load: store the rows in
the cache and clear the promise variable. -/
def completeOkStep (data : List PropertyRow) : CacheState :=
  ⟨some data, false⟩

/-- The `catch` continuation of a failed load: clear the promise
variable and resolve to the empty array; the cache variable is left
untouched (still null). -/
def completeFailStep (s : CacheState) : CacheState :=
  { s with csvLoadPromise := false }

/-- How the single in-flight load resolves. -/
inductive LoadOutcome where
  | success (data : List PropertyRow)
  | failure
  deriving DecidableEq, Repr

/-- The dataset a given call eventually resolves to, given how the
in-flight load resolves: a call that hit the cache got that value; a
call that joined or started the load gets the loaded rows on success
and the empty array on failure (the `catch` continuation returns
`[]`). -/
def resolveWith (outcome : LoadOutcome) : CallResult → List PropertyRow
  | .cached data => data
  | .joined =>
    match outcome with
    | .success d => d
    | .failure => []
  | .started =>
    match outcome with
    | .success d => d
    | .failure => []

/-- Run `n` consecutive synchronous invocations of `getCSVData` (no
load completion in between, i.e. the calls are concurrent with respect
to the initial load). Returns the final cache state, the number of
file reads triggered (one per `started` result), and the per-call
results in order. -/
def runCalls : CacheState → Nat → CacheState × Nat × List CallResult
  | s, 0 => (s, 0, [])
  | s, n + 1 =>
    let step := getCSVDataStep s
    let rest := runCalls step.1 n
    (rest.1, (if step.2 = CallResult.started then 1 else 0) + rest.2.1,
      step.2 :: rest.2.2)

/-! ### The request handler

The handler is embedded as a pure function of the request data, of
the parse result of the body, and of the outcomes of the two outbound
fetch calls. Besides the HTTP response it returns an effect record
stating which outbound calls were issued and with what body, so that
claims about calls NOT being made are expressible. -/

/-- One row of the device-detail response `data.rows` collection. -/
structure DeviceRow where
  DeviceName : Option String
  IMEI : Option String
  MacAddress : Option String
  SerialNumber : Option String
  deriving DecidableEq, Repr

/-- The parsed JSON body of a successful device-detail response:
either some of `deviceData`, `deviceData.data`, `deviceData.data.rows`
is falsy (`noRows`), or the rows collection is present. -/
inductive DeviceJson where
  | noRows
  | rows (rs : List DeviceRow)
  deriving DecidableEq, Repr

/-- The guard `deviceData && deviceData.data && deviceData.data.rows
&& deviceData.data.rows.length > 0` from the source. -/
def hasRows : DeviceJson → Bool
  | .noRows => false
  | .rows rs => rs.length > 0

/-- Outcome of the outbound GET device-detail call: the fetch or the
body parse threw, the response had a non-success status, or it
succeeded with a parsed body. -/
inductive DeviceFetchOutcome where
  | transportError
  | httpError (status : Nat) (statusText : String)
  | ok (dd : DeviceJson)
  deriving DecidableEq, Repr

/-- Outcome of the outbound PUT property-update call. On
`transportError` the message is the thrown error message; on
`httpError` the source itself throws
`SureMDM API error: STATUS STATUSTEXT`. The success result is kept
opaque. -/
inductive UpdateOutcome where
  | transportError (msg : String)
  | httpError (status : Nat) (statusText : String)
  | ok (result : String)
  deriving DecidableEq, Repr

/-- The inbound payload after JSON parsing; only the two contractually
required fields are interpreted, each possibly absent. -/
structure Payload where
  EventType : Option JSValue
  DeviceId : Option JSValue
  deriving DecidableEq, Repr

/-- One element of the `propertyData` array sent to the update
endpoint. -/
structure PropertyEdit where
  _id : JSValue
  CustomPropertiesKey : Option String
  CustomAttributeExistingKey : String
  CustomPropertiesValue : Option String
  deriving DecidableEq, Repr

/-- The `deviceDetails` object of the success response. -/
structure DeviceDetails where
  name : String
  imei : String
  macAddress : String
  serialNumber : Option String
  deriving DecidableEq, Repr

/-- The JSON body of the 200 success response. -/
structure ResponseData where
  message : String
  receivedEvent : Option JSValue
  deviceId : JSValue
  editResponse : String
  deviceDetails : DeviceDetails
  customProperties : List PropertyRow
  timestamp : String
  deriving DecidableEq, Repr

/-- A response body: plain text or the structured success JSON. -/
inductive RespBody where
  | text (s : String)
  | json (r : ResponseData)
  deriving DecidableEq, Repr

/-- An HTTP response as constructed by the handler. -/
structure HttpResponse where
  status : Nat
  body : RespBody
  deriving DecidableEq, Repr

/-- Which externally visible actions a handler run performed:
whether the device-detail GET was issued, whether the CSV lookup ran,
and the body of the property-update PUT when it was issued. -/
structure Effects where
  deviceFetchAttempted : Bool
  csvLookupDone : Bool
  updateCallBody : Option (List PropertyEdit)
  deriving DecidableEq, Repr

/-- All inputs of one handler invocation: the request method and
headers (only logged by the source), the raw body text, the result of
`JSON.parse` on it, the outcomes of the two outbound calls, and the
timestamp taken at response construction. -/
structure HandlerInput where
  method : String
  headers : List (String × String)
  rawBody : String
  parsed : Except String Payload
  deviceFetch : DeviceFetchOutcome
  updateFetch : UpdateOutcome
  timestamp : String

/-- The check `body.EventType === 'Device Deletion'`: strict equality
against the deletion sentinel, true exactly for that string value. -/
def isDeletion (eventType : Option JSValue) : Bool :=
  match eventType with
  | some (.vstr s) => s == "Device Deletion"
  | _ => false

/-- Step 5 of the handler: on a deletion event skip the fetch and use
the deletion placeholder name; otherwise consume the fetch outcome.
A non-success status or a thrown error keeps the default field values
and continues; a success response with no rows is the early
`device not found on suremdm` return; otherwise the first row is
mapped into the device fields with per-field defaults. -/
inductive FetchStageResult where
  | notFound
  | record (details : DeviceDetails) (fetchAttempted : Bool)
  deriving DecidableEq, Repr

/-- The fetch stage itself (lines 166 to 233 of the source). -/
def fetchStage (deviceId : JSValue) (isDeleteEvent : Bool)
    (outcome : DeviceFetchOutcome) : FetchStageResult :=
  if isDeleteEvent then
    .record ⟨"Device " ++ jsToString deviceId ++ " (Deleted)", "N/A", "N/A", none⟩ false
  else
    match outcome with
    | .httpError _ _ =>
      .record ⟨"Unknown Device", "N/A", "N/A", none⟩ true
    | .transportError =>
      .record ⟨"Unknown Device", "N/A", "N/A", none⟩ true
    | .ok dd =>
      if hasRows dd then
        match dd with
        | .rows (device :: _) =>
          .record ⟨jsOr device.DeviceName "Unknown Device",
                   jsOr device.IMEI "N/A",
                   jsOr device.MacAddress "N/A",
                   some (jsOr device.SerialNumber "N/A")⟩ true
        | _ => .notFound
      else .notFound

/-- The guard `serialNumber && serialNumber !== 'N/A'` (and its
negation used in step 7): the serial variable is null, or a string
that is empty or the `N/A` sentinel. -/
def serialAvailable : Option String → Bool
  | none => false
  | some s => s != "" && s != "N/A"

/-- The `propertyData` construction loop: one `PropertyEdit` pushed
per matched row, `_id` the device id, key and value from the row, and
an empty existing-key field. -/
def buildPropertyData (deviceId : JSValue)
    (customProperties : List PropertyRow) : List PropertyEdit :=
  customProperties.foldl
    (fun propertyData property =>
      propertyData ++ [⟨deviceId, property.Propertyname, "", property.Value⟩])
    []

/-- Steps 6 and 7 of the handler: the CSV lookup (run only when a
serial number is available), the two 400 guards, the update call with
its two failure modes mapped to 500, and the 200 success response. -/
def steps67 (csvData : List PropertyRow) (inp : HandlerInput)
    (body : Payload) (deviceId : JSValue) (details : DeviceDetails)
    (fetchAttempted : Bool) : HttpResponse × Effects :=
  let lookupRan := serialAvailable details.serialNumber
  let customProperties :=
    if serialAvailable details.serialNumber then
      lookupCustomProperties (some csvData) details.serialNumber
    else []
  if !serialAvailable details.serialNumber then
    (⟨400, .text "No serial number available - cannot lookup properties in CSV"⟩,
     ⟨fetchAttempted, lookupRan, none⟩)
  else if customProperties.length = 0 then
    (⟨400, .text "No custom properties found in CSV for this serial number"⟩,
     ⟨fetchAttempted, lookupRan, none⟩)
  else
    let propertyData := buildPropertyData deviceId customProperties
    match inp.updateFetch with
    | .httpError status statusText =>
      (⟨500, .text ("Error: SureMDM API error: " ++ toString status ++ " " ++ statusText)⟩,
       ⟨fetchAttempted, lookupRan, some propertyData⟩)
    | .transportError msg =>
      (⟨500, .text ("Error: " ++ msg)⟩,
       ⟨fetchAttempted, lookupRan, some propertyData⟩)
    | .ok result =>
      (⟨200, .json ⟨"Webhook received and processed successfully", body.EventType,
                    deviceId, result, details, customProperties, inp.timestamp⟩⟩,
       ⟨fetchAttempted, lookupRan, some propertyData⟩)

/-- The full handler: the liveness short-circuit on an empty or
whitespace-only body, the 400 on a JSON parse error, the truthiness
check of the two required fields, then the fetch stage and steps 6
and 7. The CSV dataset is the value `await getCSVData()` resolved to. -/
def handler (csvData : List PropertyRow) (inp : HandlerInput) :
    HttpResponse × Effects :=
  if inp.rawBody = "" ∨ jsTrim inp.rawBody = "" then
    (⟨200, .text "Webhook endpoint is working. Send JSON data with EventType and DeviceId."⟩,
     ⟨false, false, none⟩)
  else
    match inp.parsed with
    | .error msg =>
      (⟨400, .text ("Invalid JSON body. Error: " ++ msg)⟩, ⟨false, false, none⟩)
    | .ok body =>
      if !(truthyOpt body.EventType && truthyOpt body.DeviceId) then
        (⟨400, .text "Missing required fields (EventType or DeviceId)"⟩,
         ⟨false, false, none⟩)
      else
        let deviceId := body.DeviceId.getD JSValue.vnull
        match fetchStage deviceId (isDeletion body.EventType) inp.deviceFetch with
        | .notFound =>
          (⟨400, .text "device not found on suremdm"⟩, ⟨true, false, none⟩)
        | .record details fetchAttempted =>
          steps67 csvData inp body deviceId details fetchAttempted

/-! ### Concrete inputs used by the witness theorems -/

/-- A sample CSV row for serial number SN1. -/
def sampleRow : PropertyRow := ⟨some "SN1", some "Location", some "HQ"⟩

/-- A second CSV row, for a different serial number. -/
def otherRow : PropertyRow := ⟨some "SN2", some "Owner", some "Bob"⟩

/-- A sample CSV dataset. -/
def sampleCSV : List PropertyRow := [sampleRow, otherRow]

/-- An enrollment payload with both required fields truthy. -/
def payloadEnrolled : Payload :=
  ⟨some (.vstr "Device Enrolled"), some (.vstr "abc123")⟩

/-- A deletion payload. -/
def payloadDeletion : Payload :=
  ⟨some (.vstr "Device Deletion"), some (.vstr "abc123")⟩

/-- A device-detail row whose serial number is SN1. -/
def sampleDeviceRow : DeviceRow :=
  ⟨some "Front Desk Tablet", some "111222333", some "aa:bb:cc", some "SN1"⟩

/-- Witness input: device-detail call succeeds but with zero rows. -/
def inputNoRows : HandlerInput :=
  ⟨"POST", [], "x", .ok payloadEnrolled, .ok (.rows []), .ok "r", "t"⟩

/-- Witness input: device-detail call returns HTTP 500. -/
def inputFetch500 : HandlerInput :=
  ⟨"POST", [], "x", .ok payloadEnrolled,
   .httpError 500 "Internal Server Error", .ok "r", "t"⟩

/-- Witness input: a deletion event. -/
def inputDeletion : HandlerInput :=
  ⟨"POST", [], "x", .ok payloadDeletion, .transportError, .ok "r", "t"⟩

/-- Witness input: full pipeline reaching the update call, which
returns HTTP 503. -/
def inputUpdate503 : HandlerInput :=
  ⟨"POST", [], "x", .ok payloadEnrolled, .ok (.rows [sampleDeviceRow]),
   .httpError 503 "Service Unavailable", "t"⟩

/-- Witness input: whitespace-only body. -/
def inputBlank : HandlerInput :=
  ⟨"GET", [("host", "example.com")], "  ", .error "e",
   .transportError, .transportError "m", "t"⟩

/-- Witness input: EventType present but equal to the empty string. -/
def inputFalsyEventType : HandlerInput :=
  ⟨"POST", [], "x", .ok ⟨some (.vstr ""), some (.vstr "abc123")⟩,
   .transportError, .transportError "m", "t"⟩

/-! ### Helper lemmas -/

lemma runCalls_pending (n : Nat) :
    runCalls ⟨none, true⟩ n = (⟨none, true⟩, 0, List.replicate n CallResult.joined) := by
  induction n with
  | zero => rfl
  | succ k ih => simp [runCalls, getCSVDataStep, ih, List.replicate]

lemma runCalls_cached (data : List PropertyRow) (n : Nat) :
    runCalls ⟨some data, false⟩ n
      = (⟨some data, false⟩, 0, List.replicate n (CallResult.cached data)) := by
  induction n with
  | zero => rfl
  | succ k ih => simp [runCalls, getCSVDataStep, ih, List.replicate]

lemma jsOr_ne_of_default_ne (v : Option String) (d : String) (hd : d ≠ "") :
    jsOr v d ≠ "" := by
  cases v with
  | none => simpa [jsOr] using hd
  | some s => by_cases hs : s = "" <;> simp [jsOr, hs, hd]

lemma foldl_append_singleton {α β : Type} (f : α → β) :
    ∀ (l : List α) (acc : List β),
      l.foldl (fun a x => a ++ [f x]) acc = acc ++ l.map f
  | [], _ => by simp
  | x :: xs, acc => by
    simp [List.foldl, foldl_append_singleton f xs]

/-! ### Claim theorems -/

/-- C2: for every N at least 1, N invocations of getCSVData
concurrent with the initial load trigger exactly one read of the
backing file (the first call starts the load, the rest join the same
pending promise), all N calls resolve to the identical dataset that
the load produced, and once the load has completed every later call
returns the cached dataset with no further read. -/
theorem csv_cache_concurrent_single_read (n : Nat) (h : 1 ≤ n)
    (data : List PropertyRow) :
    runCalls initialCacheState n
      = (⟨none, true⟩, 1,
         CallResult.started :: List.replicate (n - 1) CallResult.joined)
    ∧ ((runCalls initialCacheState n).2.2).map (resolveWith (.success data))
      = List.replicate n data
    ∧ ∀ m : Nat, runCalls (completeOkStep data) m
        = (completeOkStep data, 0, List.replicate m (CallResult.cached data)) := by
  obtain ⟨k, rfl⟩ : ∃ k, n = k + 1 := ⟨n - 1, (Nat.succ_pred_eq_of_pos h).symm⟩
  refine ⟨?_, ?_, ?_⟩
  · simp [runCalls, getCSVDataStep, initialCacheState, runCalls_pending]
  · simp [runCalls, getCSVDataStep, initialCacheState, runCalls_pending,
      resolveWith, List.replicate_succ]
  · intro m
    simpa [completeOkStep] using runCalls_cached data m

/-- Witness for C2 at N = 2 with a one-row dataset. -/
theorem csv_cache_concurrent_single_read_witness :
    (1 : Nat) ≤ 2
    ∧ (runCalls initialCacheState 2
        = (⟨none, true⟩, 1,
           CallResult.started :: List.replicate (2 - 1) CallResult.joined)
      ∧ ((runCalls initialCacheState 2).2.2).map (resolveWith (.success [sampleRow]))
        = List.replicate 2 [sampleRow]
      ∧ ∀ m : Nat, runCalls (completeOkStep [sampleRow]) m
          = (completeOkStep [sampleRow], 0,
             List.replicate m (CallResult.cached [sampleRow]))) :=
  ⟨by decide, csv_cache_concurrent_single_read 2 (by decide) [sampleRow]⟩

/-- C1 counterexample: the first call starts a read; after the load
fails (resolving that call to the empty array), the very next call
starts ANOTHER read of the backing file — the claim that no later
call triggers another read for the rest of the process lifetime is
false on the code, which clears the pending promise without
populating the cache. -/
theorem csv_cache_failure_retry_counterexample :
    (getCSVDataStep initialCacheState).2 = CallResult.started
    ∧ resolveWith LoadOutcome.failure (getCSVDataStep initialCacheState).2 = []
    ∧ (getCSVDataStep (completeFailStep (getCSVDataStep initialCacheState).1)).2
        = CallResult.started := by
  decide

/-- C1 amended: if the first CSV load fails, every call joined to
that load resolves to the empty sequence without raising; but the
cache is NOT thereafter ready — the failure returns the module state
to its initial value, so the next getCSVData call after the failure
starts another read of the backing file. -/
theorem csv_cache_failure_resolves_empty_then_retries (n : Nat) (h : 1 ≤ n) :
    ((runCalls initialCacheState n).2.2).map (resolveWith LoadOutcome.failure)
      = List.replicate n []
    ∧ completeFailStep (runCalls initialCacheState n).1 = initialCacheState
    ∧ (getCSVDataStep (completeFailStep (runCalls initialCacheState n).1)).2
        = CallResult.started := by
  obtain ⟨k, rfl⟩ : ∃ k, n = k + 1 := ⟨n - 1, (Nat.succ_pred_eq_of_pos h).symm⟩
  refine ⟨?_, ?_, ?_⟩
  · simp [runCalls, getCSVDataStep, initialCacheState, runCalls_pending,
      resolveWith, List.replicate_succ]
  · simp [runCalls, getCSVDataStep, initialCacheState, runCalls_pending,
      completeFailStep]
  · simp [runCalls, getCSVDataStep, initialCacheState, runCalls_pending,
      completeFailStep]

/-- Witness for the amended C1 at N = 2. -/
theorem csv_cache_failure_resolves_empty_then_retries_witness :
    (1 : Nat) ≤ 2
    ∧ (((runCalls initialCacheState 2).2.2).map (resolveWith LoadOutcome.failure)
        = List.replicate 2 []
      ∧ completeFailStep (runCalls initialCacheState 2).1 = initialCacheState
      ∧ (getCSVDataStep (completeFailStep (runCalls initialCacheState 2).1)).2
          = CallResult.started) :=
  ⟨by decide, csv_cache_failure_resolves_empty_then_retries 2 (by decide)⟩

/-- C3: for every non-deletion event whose device-detail fetch
returns a success status but whose row collection is absent or empty,
the handler stops immediately with status 400 and the
device-not-found message; the effect record shows the CSV lookup did
not run and no property-update call was issued. -/
theorem handler_deviceNotFound_stops (csvData : List PropertyRow)
    (inp : HandlerInput) (body : Payload) (dd : DeviceJson)
    (hbody : ¬ (inp.rawBody = "" ∨ jsTrim inp.rawBody = ""))
    (hparsed : inp.parsed = .ok body)
    (hE : truthyOpt body.EventType = true)
    (hD : truthyOpt body.DeviceId = true)
    (hdel : isDeletion body.EventType = false)
    (hfetch : inp.deviceFetch = .ok dd)
    (hrows : hasRows dd = false) :
    handler csvData inp
      = (⟨400, .text "device not found on suremdm"⟩, ⟨true, false, none⟩) := by
  simp [handler, hbody, hparsed, hE, hD, hdel, hfetch, hrows, fetchStage]

/-- Witness for C3 with a success response carrying zero rows. -/
theorem handler_deviceNotFound_stops_witness :
    handler sampleCSV inputNoRows
      = (⟨400, .text "device not found on suremdm"⟩, ⟨true, false, none⟩) :=
  handler_deviceNotFound_stops sampleCSV inputNoRows payloadEnrolled
    (.rows []) (by decide) rfl (by decide) (by decide) (by decide) rfl (by decide)

/-- C4: for every non-deletion event whose device-detail fetch
returns a non-success HTTP status, the handler does not fail there:
the fetch stage yields the all-defaults device record with no serial
number, and the request ends with status 400 at the serial-number
check, never 500 from the fetch stage. -/
theorem handler_fetchHttpError_degrades (csvData : List PropertyRow)
    (inp : HandlerInput) (body : Payload) (st : Nat) (stx : String)
    (hbody : ¬ (inp.rawBody = "" ∨ jsTrim inp.rawBody = ""))
    (hparsed : inp.parsed = .ok body)
    (hE : truthyOpt body.EventType = true)
    (hD : truthyOpt body.DeviceId = true)
    (hdel : isDeletion body.EventType = false)
    (hfetch : inp.deviceFetch = .httpError st stx) :
    fetchStage (body.DeviceId.getD JSValue.vnull) (isDeletion body.EventType)
        inp.deviceFetch
      = .record ⟨"Unknown Device", "N/A", "N/A", none⟩ true
    ∧ handler csvData inp
      = (⟨400, .text "No serial number available - cannot lookup properties in CSV"⟩,
         ⟨true, false, none⟩) := by
  constructor
  · simp [fetchStage, hdel, hfetch]
  · simp [handler, hbody, hparsed, hE, hD, hdel, hfetch, fetchStage,
      steps67, serialAvailable]

/-- Witness for C4 with an HTTP 500 from the provider. -/
theorem handler_fetchHttpError_degrades_witness :
    fetchStage (payloadEnrolled.DeviceId.getD JSValue.vnull)
        (isDeletion payloadEnrolled.EventType) inputFetch500.deviceFetch
      = .record ⟨"Unknown Device", "N/A", "N/A", none⟩ true
    ∧ handler sampleCSV inputFetch500
      = (⟨400, .text "No serial number available - cannot lookup properties in CSV"⟩,
         ⟨true, false, none⟩) :=
  handler_fetchHttpError_degrades sampleCSV inputFetch500 payloadEnrolled
    500 "Internal Server Error" (by decide) rfl (by decide) (by decide)
    (by decide) rfl

/-- C5: for every valid payload whose EventType is exactly the
deletion sentinel, the fetch stage short-circuits without issuing the
device-detail request (the effect record shows no fetch attempt),
yielding the deletion-annotated placeholder name and no serial
number, and the request ends with status 400 at the serial-number
check. -/
theorem handler_deletion_short_circuit (csvData : List PropertyRow)
    (inp : HandlerInput) (body : Payload)
    (hbody : ¬ (inp.rawBody = "" ∨ jsTrim inp.rawBody = ""))
    (hparsed : inp.parsed = .ok body)
    (hE : truthyOpt body.EventType = true)
    (hD : truthyOpt body.DeviceId = true)
    (hdel : body.EventType = some (JSValue.vstr "Device Deletion")) :
    fetchStage (body.DeviceId.getD JSValue.vnull) (isDeletion body.EventType)
        inp.deviceFetch
      = .record ⟨"Device " ++ jsToString (body.DeviceId.getD JSValue.vnull)
                   ++ " (Deleted)", "N/A", "N/A", none⟩ false
    ∧ handler csvData inp
      = (⟨400, .text "No serial number available - cannot lookup properties in CSV"⟩,
         ⟨false, false, none⟩) := by
  have hdel' : isDeletion body.EventType = true := by
    simp [isDeletion, hdel]
  constructor
  · simp [fetchStage, hdel']
  · simp [handler, hbody, hparsed, hE, hD, hdel', fetchStage,
      steps67, serialAvailable]

/-- Witness for C5 on the deletion payload from the spec scenario. -/
theorem handler_deletion_short_circuit_witness :
    fetchStage (payloadDeletion.DeviceId.getD JSValue.vnull)
        (isDeletion payloadDeletion.EventType) inputDeletion.deviceFetch
      = .record ⟨"Device " ++ jsToString (payloadDeletion.DeviceId.getD JSValue.vnull)
                   ++ " (Deleted)", "N/A", "N/A", none⟩ false
    ∧ handler sampleCSV inputDeletion
      = (⟨400, .text "No serial number available - cannot lookup properties in CSV"⟩,
         ⟨false, false, none⟩) :=
  handler_deletion_short_circuit sampleCSV inputDeletion payloadDeletion
    (by decide) rfl (by decide) (by decide) rfl

/-- C6: for every non-empty sequence of matched rows, the update
body has exactly one property-edit record per matched row, in the
same order (it is the map of the per-row record constructor), every
record carrying the device id as its underscore-id field, the row
Propertyname as key, the row Value as value, and the empty string as
the existing-key field. -/
theorem buildPropertyData_one_edit_per_row (deviceId : JSValue)
    (matched : List PropertyRow) (_h : matched ≠ []) :
    buildPropertyData deviceId matched
      = matched.map (fun row => ⟨deviceId, row.Propertyname, "", row.Value⟩)
    ∧ (buildPropertyData deviceId matched).length = matched.length := by
  have hmap : buildPropertyData deviceId matched
      = matched.map (fun row => ⟨deviceId, row.Propertyname, "", row.Value⟩) := by
    simpa [buildPropertyData] using
      foldl_append_singleton
        (fun row : PropertyRow =>
          (⟨deviceId, row.Propertyname, "", row.Value⟩ : PropertyEdit))
        matched []
  exact ⟨hmap, by simp [hmap]⟩

/-- Witness for C6 on a two-row match list. -/
theorem buildPropertyData_one_edit_per_row_witness :
    buildPropertyData (JSValue.vstr "abc123") sampleCSV
      = sampleCSV.map (fun row => ⟨JSValue.vstr "abc123", row.Propertyname, "", row.Value⟩)
    ∧ (buildPropertyData (JSValue.vstr "abc123") sampleCSV).length
      = sampleCSV.length :=
  buildPropertyData_one_edit_per_row (JSValue.vstr "abc123") sampleCSV (by decide)

/-- C7: for every request that reaches the property-update stage (a
serial number was resolved and the lookup matched), a non-success
HTTP status or a transport error on the update call is a hard failure
of the whole request: the handler returns status 500 carrying the
error message, and the attempted update body was the single batch of
all edits. -/
theorem handler_updateFailure_500 (csvData : List PropertyRow)
    (inp : HandlerInput) (body : Payload) (device : DeviceRow)
    (rest : List DeviceRow)
    (hbody : ¬ (inp.rawBody = "" ∨ jsTrim inp.rawBody = ""))
    (hparsed : inp.parsed = .ok body)
    (hE : truthyOpt body.EventType = true)
    (hD : truthyOpt body.DeviceId = true)
    (hdel : isDeletion body.EventType = false)
    (hfetch : inp.deviceFetch = .ok (.rows (device :: rest)))
    (hserial : jsOr device.SerialNumber "N/A" ≠ "N/A")
    (hmatches : lookupCustomProperties (some csvData)
        (some (jsOr device.SerialNumber "N/A")) ≠ []) :
    (∀ st stx, inp.updateFetch = .httpError st stx →
      handler csvData inp
        = (⟨500, .text ("Error: SureMDM API error: " ++ toString st ++ " " ++ stx)⟩,
           ⟨true, true, some (buildPropertyData (body.DeviceId.getD JSValue.vnull)
             (lookupCustomProperties (some csvData)
               (some (jsOr device.SerialNumber "N/A"))))⟩))
    ∧ (∀ msg, inp.updateFetch = .transportError msg →
      handler csvData inp
        = (⟨500, .text ("Error: " ++ msg)⟩,
           ⟨true, true, some (buildPropertyData (body.DeviceId.getD JSValue.vnull)
             (lookupCustomProperties (some csvData)
               (some (jsOr device.SerialNumber "N/A"))))⟩)) := by
  have hne : jsOr device.SerialNumber "N/A" ≠ "" :=
    jsOr_ne_of_default_ne _ _ (by decide)
  have hsa : serialAvailable (some (jsOr device.SerialNumber "N/A")) = true := by
    simp [serialAvailable, hne, hserial]
  have hlen : (lookupCustomProperties (some csvData)
      (some (jsOr device.SerialNumber "N/A"))).length ≠ 0 := by
    simpa [List.length_eq_zero] using hmatches
  constructor
  · intro st stx hupd
    simp [handler, hbody, hparsed, hE, hD, hdel, hfetch, hupd, fetchStage,
      hasRows, steps67, hsa, hlen]
  · intro msg hupd
    simp [handler, hbody, hparsed, hE, hD, hdel, hfetch, hupd, fetchStage,
      hasRows, steps67, hsa, hlen]

/-- Witness for C7: the pipeline reaches the update call, which
returns HTTP 503, and the handler answers 500 with the message. -/
theorem handler_updateFailure_500_witness :
    (∀ st stx, inputUpdate503.updateFetch = .httpError st stx →
      handler sampleCSV inputUpdate503
        = (⟨500, .text ("Error: SureMDM API error: " ++ toString st ++ " " ++ stx)⟩,
           ⟨true, true, some (buildPropertyData (payloadEnrolled.DeviceId.getD JSValue.vnull)
             (lookupCustomProperties (some sampleCSV)
               (some (jsOr sampleDeviceRow.SerialNumber "N/A"))))⟩))
    ∧ (∀ msg, inputUpdate503.updateFetch = .transportError msg →
      handler sampleCSV inputUpdate503
        = (⟨500, .text ("Error: " ++ msg)⟩,
           ⟨true, true, some (buildPropertyData (payloadEnrolled.DeviceId.getD JSValue.vnull)
             (lookupCustomProperties (some sampleCSV)
               (some (jsOr sampleDeviceRow.SerialNumber "N/A"))))⟩)) :=
  handler_updateFailure_500 sampleCSV inputUpdate503 payloadEnrolled
    sampleDeviceRow [] (by decide) rfl (by decide) (by decide) (by decide)
    rfl (by decide) (by decide)

/-- C8: lookupCustomProperties returns exactly the rows of the
dataset whose SerialNumber column equals the given serial number by
exact string equality, as a stable filter (hence a subsequence in the
original order); it returns the empty sequence when the serial number
is missing or empty, when the dataset reference is missing, and when
the dataset is empty. -/
theorem lookupCustomProperties_exact_filter (rows : List PropertyRow)
    (s : String) (sn : Option String) (hs : s ≠ "") :
    lookupCustomProperties (some rows) (some s)
      = rows.filter (fun row =>
          match row.SerialNumber with
          | some t => t == s
          | none => false)
    ∧ List.Sublist (lookupCustomProperties (some rows) (some s)) rows
    ∧ (∀ r ∈ lookupCustomProperties (some rows) (some s), r.SerialNumber = some s)
    ∧ (∀ r ∈ rows, r.SerialNumber = some s →
        r ∈ lookupCustomProperties (some rows) (some s))
    ∧ lookupCustomProperties none sn = []
    ∧ lookupCustomProperties (some rows) none = []
    ∧ lookupCustomProperties (some rows) (some "") = []
    ∧ lookupCustomProperties (some []) (some s) = [] := by
  have hfil : lookupCustomProperties (some rows) (some s)
      = rows.filter (fun row =>
          match row.SerialNumber with
          | some t => t == s
          | none => false) := by
    simp [lookupCustomProperties, hs]
  refine ⟨hfil, ?_, ?_, ?_, ?_, ?_, ?_, ?_⟩
  · rw [hfil]; exact List.filter_sublist rows
  · intro r hr
    rw [hfil] at hr
    have hp := List.of_mem_filter hr
    cases hsn : r.SerialNumber with
    | none => simp [hsn] at hp
    | some t =>
      simp only [hsn, beq_iff_eq] at hp
      simp [hsn, hp]
  · intro r hr hser
    rw [hfil]
    exact List.mem_filter.mpr ⟨hr, by simp [hser]⟩
  · cases sn <;> rfl
  · rfl
  · simp [lookupCustomProperties]
  · simp [lookupCustomProperties, hs]

/-- Witness for C8 on the sample dataset and serial SN1. -/
theorem lookupCustomProperties_exact_filter_witness :
    lookupCustomProperties (some sampleCSV) (some "SN1")
      = sampleCSV.filter (fun row =>
          match row.SerialNumber with
          | some t => t == "SN1"
          | none => false)
    ∧ List.Sublist (lookupCustomProperties (some sampleCSV) (some "SN1")) sampleCSV
    ∧ (∀ r ∈ lookupCustomProperties (some sampleCSV) (some "SN1"),
        r.SerialNumber = some "SN1")
    ∧ (∀ r ∈ sampleCSV, r.SerialNumber = some "SN1" →
        r ∈ lookupCustomProperties (some sampleCSV) (some "SN1"))
    ∧ lookupCustomProperties none (some "SN1") = []
    ∧ lookupCustomProperties (some sampleCSV) none = []
    ∧ lookupCustomProperties (some sampleCSV) (some "") = []
    ∧ lookupCustomProperties (some []) (some "SN1") = [] :=
  lookupCustomProperties_exact_filter sampleCSV "SN1" (some "SN1") (by decide)

/-- C9: for every inbound request whose body is empty or
whitespace-only, the handler returns status 200 with the plain-text
liveness message, for any method and headers, and the effect record
shows that no outbound API call was issued. -/
theorem handler_emptyBody_liveness (csvData : List PropertyRow)
    (inp : HandlerInput) (h : jsTrim inp.rawBody = "") :
    handler csvData inp
      = (⟨200, .text "Webhook endpoint is working. Send JSON data with EventType and DeviceId."⟩,
         ⟨false, false, none⟩) := by
  simp [handler, h]

/-- Witness for C9 on a whitespace-only body with arbitrary method
and headers. -/
theorem handler_emptyBody_liveness_witness :
    handler sampleCSV inputBlank
      = (⟨200, .text "Webhook endpoint is working. Send JSON data with EventType and DeviceId."⟩,
         ⟨false, false, none⟩) :=
  handler_emptyBody_liveness sampleCSV inputBlank (by decide)

/-- C10: the required-field check is a truthiness test, not a
presence test — for every parsed payload in which EventType or
DeviceId is present but falsy (the empty string, 0, false, or null),
the handler returns status 400 with the missing-fields message,
exactly the same response as for the payload with the fields
absent. -/
theorem handler_falsyField_missing (csvData : List PropertyRow)
    (inp : HandlerInput) (body : Payload)
    (hbody : ¬ (inp.rawBody = "" ∨ jsTrim inp.rawBody = ""))
    (hparsed : inp.parsed = .ok body)
    (hfalsy : (∃ v, body.EventType = some v ∧ truthy v = false)
            ∨ (∃ v, body.DeviceId = some v ∧ truthy v = false)) :
    handler csvData inp
      = (⟨400, .text "Missing required fields (EventType or DeviceId)"⟩,
         ⟨false, false, none⟩)
    ∧ handler csvData inp
      = handler csvData { inp with parsed := .ok ⟨none, none⟩ } := by
  have h400 : handler csvData inp
      = (⟨400, .text "Missing required fields (EventType or DeviceId)"⟩,
         ⟨false, false, none⟩) := by
    rcases hfalsy with ⟨v, hv, htv⟩ | ⟨v, hv, htv⟩
    · simp [handler, hbody, hparsed, truthyOpt, hv, htv]
    · simp [handler, hbody, hparsed, truthyOpt, hv, htv]
  refine ⟨h400, ?_⟩
  rw [h400]
  simp [handler, hbody, truthyOpt]

/-- Witness for C10: EventType present but equal to the empty
string. -/
theorem handler_falsyField_missing_witness :
    handler sampleCSV inputFalsyEventType
      = (⟨400, .text "Missing required fields (EventType or DeviceId)"⟩,
         ⟨false, false, none⟩)
    ∧ handler sampleCSV inputFalsyEventType
      = handler sampleCSV { inputFalsyEventType with parsed := .ok ⟨none, none⟩ } :=
  handler_falsyField_missing sampleCSV inputFalsyEventType
    ⟨some (.vstr ""), some (.vstr "abc123")⟩ (by decide) rfl
    (Or.inl ⟨.vstr "", rfl, rfl⟩)

end Webhook
